import Mathlib

/-!
Shallow embedding of the `backend/posts` app of the Django_Blog_CBVs
repository: the post/comment visibility and permission layer.

The embedding follows `src/backend/posts/views.py` (PostViewSet,
CommentCreateView, CommentDetailView) and `src/backend/posts/urls.py`.
The repository's `models.py`, `serializers.py` and `permissions.py` are
not in the source snapshot; where a definition depends on them it is
modelled from the specification and marked as such in its doc comment.
The generic request pipeline of the REST framework (permission check,
queryset lookup, object-permission check, in that order) is an external
collaborator and is embedded by its documented contract.
-/

namespace Blog

/-- A request caller (Django user).  `is_authenticated = false` models the
anonymous user; the anonymous user is never staff and never compares equal
to a stored author. -/
structure User where
  id : Nat
  is_authenticated : Bool
  is_staff : Bool
  deriving DecidableEq, Repr

/-- A stored `Post` row: identifier, slug, title, body, author reference,
`is_published` flag and creation timestamp (modelled as a `Nat` tick). -/
structure Post where
  id : Nat
  slug : String
  title : String
  body : String
  authorId : Nat
  is_published : Bool
  created_at : Nat
  deriving DecidableEq, Repr

/-- A stored `Comment` row: identifier, parent post reference, author
reference, body and `is_approved` flag. -/
structure Comment where
  id : Nat
  postId : Nat
  authorId : Nat
  body : String
  is_approved : Bool
  deriving DecidableEq, Repr

/-- The persistent store: the `Post` and `Comment` tables. -/
structure Store where
  posts : List Post
  comments : List Comment
  deriving DecidableEq, Repr

/-- Outcomes of the transport layer for failed operations. -/
inductive ApiErr where
  | notFound
  | forbidden
  | unauthenticated
  | validationError
  deriving DecidableEq, Repr

instance {ε α : Type} [DecidableEq ε] [DecidableEq α] : DecidableEq (Except ε α) := fun x y =>
  match x, y with
  | .ok a, .ok b =>
      if h : a = b then isTrue (by rw [h]) else isFalse (by intro hc; cases hc; exact h rfl)
  | .error a, .error b =>
      if h : a = b then isTrue (by rw [h]) else isFalse (by intro hc; cases hc; exact h rfl)
  | .ok _, .error _ => isFalse (by intro hc; cases hc)
  | .error _, .ok _ => isFalse (by intro hc; cases hc)

/-- True when an operation succeeded. -/
def exOk {α : Type} : Except ApiErr α → Bool
  | .ok _ => true
  | .error _ => false

/-- The denial a permission failure maps to: 403 for an authenticated
caller, 401 for an anonymous one. -/
def denied (u : User) : ApiErr :=
  if u.is_authenticated then ApiErr.forbidden else ApiErr.unauthenticated

/-- Modelled from the spec: `IsAdminOrReadOnly.has_permission` from the
repository's `permissions.py` (absent from the snapshot).  Read actions are
always permitted; `create` requires staff or any authenticated caller;
`update` and `delete` require staff. -/
def isAdminOrReadOnlyWrite (u : User) (isCreate : Bool) : Bool :=
  u.is_staff || (isCreate && u.is_authenticated)

/-- Modelled from the spec: `IsAuthorOrAdmin.has_object_permission` from the
repository's `permissions.py` (absent from the snapshot).  Permitted iff the
caller is staff or owns the comment; unauthenticated callers are denied. -/
def isAuthorOrAdmin (u : User) (c : Comment) : Bool :=
  u.is_authenticated && (u.is_staff || c.authorId == u.id)

/-- Base filtering step of `PostViewSet.get_queryset` (views.py lines 30-35):
staff see every post, everyone else only the published ones. -/
def visiblePosts (store : Store) (u : User) : List Post :=
  if u.is_staff then store.posts else store.posts.filter (fun p => p.is_published)

/-- The ordering used by the list action, `order_by("-created_at")`
(views.py line 40): newer posts first. -/
def createdDesc (a b : Post) : Prop := b.created_at ≤ a.created_at

instance : DecidableRel createdDesc := fun a b => Nat.decLe b.created_at a.created_at

instance : IsTotal Post createdDesc := ⟨fun a b => (Nat.le_total b.created_at a.created_at)⟩

instance : IsTrans Post createdDesc := ⟨fun _ _ _ hab hbc => Nat.le_trans hbc hab⟩

/-- The contract of `order_by("-created_at")` over the visible queryset: a
result is admissible iff it is some arrangement of the visible posts that is
sorted by creation time descending.  The SQL `ORDER BY` fixes nothing about
the relative order of rows with equal `created_at`. -/
def listAdmissible (store : Store) (u : User) (r : List Post) : Prop :=
  List.Perm r (visiblePosts store u) ∧ List.Pairwise createdDesc r

/-- One executable refinement of the list action (`PostViewSet` with
`action = "list"`): the visible posts arranged by creation time
descending. -/
def postList (store : Store) (u : User) : List Post :=
  List.insertionSort createdDesc (visiblePosts store u)

/-- The payload of the retrieve action: the post plus its nested comments
(`prefetch_related("comment_set__author")`, views.py lines 42-46; the
nested projection itself is modelled from the spec because
`PostDetailSerializer` is absent from the snapshot). -/
structure PostDetail where
  post : Post
  comments : List Comment
  deriving DecidableEq, Repr

/-- Retrieve action of `PostViewSet`: look the id up in the visibility-filtered
queryset — absent means `NotFound` — and project the post with all of its
comments.  `IsAdminOrReadOnly` never restricts reads, so no permission
failure can occur after the lookup. -/
def postRetrieve (store : Store) (u : User) (pid : Nat) : Except ApiErr PostDetail :=
  match (visiblePosts store u).find? (fun p => p.id == pid) with
  | none => .error ApiErr.notFound
  | some p => .ok { post := p, comments := store.comments.filter (fun c => c.postId == p.id) }

/-- Input fields of `POST /posts/` (`PostWriteSerializer` write fields,
modelled from the spec: required title and body, optional
`is_published`). -/
structure PostCreateFields where
  title : String
  body : String
  is_published : Option Bool
  deriving DecidableEq, Repr

/-- The minimal response body built by `PostViewSet.create`
(views.py lines 70-80): exactly a url and a message, never the full
resource representation. -/
structure CreateResponse where
  url : String
  message : String
  deriving DecidableEq, Repr

/-- The minimal response body built by `PostViewSet.update`
(views.py lines 82-89): exactly a fixed message. -/
structure MsgResponse where
  message : String
  deriving DecidableEq, Repr

/-- Modelled from the spec: slug derivation performed by the `Post` model
(`models.py`, absent from the snapshot). -/
def mkSlug (t : String) : String :=
  String.mk (t.data.map (fun ch => if ch = ' ' then '-' else ch))

/-- Modelled from the spec: the store's auto-increment primary key for
posts. -/
def freshPostId (store : Store) : Nat :=
  (store.posts.foldr (fun p m => Nat.max m p.id) 0) + 1

/-- Modelled from the spec: the store's auto-increment primary key for
comments. -/
def freshCommentId (store : Store) : Nat :=
  (store.comments.foldr (fun c m => Nat.max m c.id) 0) + 1

/-- Embeds `PostViewSet.create` (views.py lines 65-80): permission check
(`IsAdminOrReadOnly`: staff or any authenticated caller), field validation
(modelled from the spec: title and body required non-empty), then
`perform_create` saves with `author = request.user` and the response body
is replaced by the `{url, message}` pair built from the created row's slug
and id.  Returns the new store, the created row and the response.
The row itself is `newPostRow`, `serializer.save(author=request.user)`
(views.py lines 65-68); its defaults are modelled from the spec
(`is_published` defaults false unless a staff caller sets it). -/
def newPostRow (store : Store) (u : User) (f : PostCreateFields) (now : Nat) : Post :=
  { id := freshPostId store
    slug := mkSlug f.title
    title := f.title
    body := f.body
    authorId := u.id
    is_published := if u.is_staff then f.is_published.getD false else false
    created_at := now }

def postCreate (store : Store) (u : User) (f : PostCreateFields) (now : Nat) :
    Except ApiErr (Store × Post × CreateResponse) :=
  if ¬ (isAdminOrReadOnlyWrite u true) then .error (denied u)
  else if f.title = "" ∨ f.body = "" then .error ApiErr.validationError
  else
    .ok ({ store with posts := newPostRow store u f now :: store.posts },
         newPostRow store u f now,
         { url := "/posts/" ++ (newPostRow store u f now).slug ++ "-"
                    ++ toString (newPostRow store u f now).id ++ "/"
           message := "Post created successfully." })

/-- Input fields of `PUT/PATCH /posts/{id}/` (partial semantics). -/
structure PostUpdateFields where
  title : Option String
  body : Option String
  is_published : Option Bool
  deriving DecidableEq, Repr

/-- Applying write fields to a stored post (author immutable). -/
def applyPostFields (p : Post) (f : PostUpdateFields) : Post :=
  { p with
    title := f.title.getD p.title
    body := f.body.getD p.body
    is_published := f.is_published.getD p.is_published }

/-- Embeds `PostViewSet.update` / `partial_update` (views.py lines 82-89):
`IsAdminOrReadOnly` denies every non-staff write before the lookup; for
staff the id is looked up in the queryset and on success the response body
is replaced by the fixed message. -/
def postUpdate (store : Store) (u : User) (pid : Nat) (f : PostUpdateFields) :
    Except ApiErr (Store × MsgResponse) :=
  if ¬ u.is_staff then .error (denied u)
  else
    match store.posts.find? (fun p => p.id == pid) with
    | none => .error ApiErr.notFound
    | some p =>
        .ok ({ store with
                posts := store.posts.map (fun q => if q.id == pid then applyPostFields p f else q) },
             { message := "Post updated successfully." })

/-- Destroy action of `PostViewSet`: staff-only under `IsAdminOrReadOnly`, then
delete by id from the queryset. -/
def postDelete (store : Store) (u : User) (pid : Nat) : Except ApiErr Store :=
  if ¬ u.is_staff then .error (denied u)
  else
    match store.posts.find? (fun p => p.id == pid) with
    | none => .error ApiErr.notFound
    | some _ => .ok { store with posts := store.posts.filter (fun p => ¬ p.id == pid) }

/-- Input fields of `POST /comments/` (`CommentSerializer` write fields,
modelled from the spec: parent post, body, and a client-supplied
`is_approved` that creation never honours). -/
structure CommentCreateFields where
  postId : Nat
  body : String
  is_approved : Option Bool
  deriving DecidableEq, Repr

/-- Embeds `CommentCreateView` (views.py lines 97-109): `IsAuthenticated`
permission, then `perform_create` saves with `author = request.user`;
`is_approved` starts false regardless of input (modelled from the spec:
the serializer/model, absent from the snapshot, never lets creation set
it).  `newCommentRow` is the row `perform_create` saves: author injected
from the request, `is_approved` false whatever the input said. -/
def newCommentRow (store : Store) (u : User) (f : CommentCreateFields) : Comment :=
  { id := freshCommentId store
    postId := f.postId
    authorId := u.id
    body := f.body
    is_approved := false }

def commentCreate (store : Store) (u : User) (f : CommentCreateFields) :
    Except ApiErr (Store × Comment) :=
  if ¬ u.is_authenticated then .error ApiErr.unauthenticated
  else
    .ok ({ store with comments := newCommentRow store u f :: store.comments },
         newCommentRow store u f)

/-- Object fetch of `CommentDetailView`: the queryset is `Comment.objects.all()`
(views.py line 118) — no post-visibility filter — so the lookup misses only
when no such comment exists; then the framework runs
`IsAuthorOrAdmin.has_object_permission`. -/
def commentGetObject (store : Store) (u : User) (cid : Nat) : Except ApiErr Comment :=
  match store.comments.find? (fun c => c.id == cid) with
  | none => .error ApiErr.notFound
  | some c => if isAuthorOrAdmin u c then .ok c else .error (denied u)

/-- Embeds GET of a single comment. -/
def commentRetrieve (store : Store) (u : User) (cid : Nat) : Except ApiErr Comment :=
  commentGetObject store u cid

/-- Input fields of `PUT/PATCH /comments/{id}/`. -/
structure CommentUpdateFields where
  body : Option String
  is_approved : Option Bool
  deriving DecidableEq, Repr

/-- Embeds `CommentDetailView.perform_update` (views.py lines 124-130) after the
object fetch: when the caller is not staff, `is_approved` is deleted from
the validated field set before saving; then the remaining fields are
applied to the stored row.  Returns the saved comment. -/
def commentUpdate (store : Store) (u : User) (cid : Nat) (f : CommentUpdateFields) :
    Except ApiErr Comment :=
  match commentGetObject store u cid with
  | .error e => .error e
  | .ok c =>
      let f' := if u.is_staff then f else { f with is_approved := none }
      .ok { c with
            body := f'.body.getD c.body
            is_approved := f'.is_approved.getD c.is_approved }

/-- Embeds DELETE of a single comment: object fetch with `IsAuthorOrAdmin`, then
removal. -/
def commentDelete (store : Store) (u : User) (cid : Nat) : Except ApiErr Store :=
  match commentGetObject store u cid with
  | .error e => .error e
  | .ok c => .ok { store with comments := store.comments.filter (fun x => ¬ x.id == c.id) }

/-! ### Helper lemmas -/

/-- Membership in the filtered queryset, unfolded. -/
lemma mem_visiblePosts_iff (store : Store) (u : User) (p : Post) (hp : p ∈ store.posts) :
    p ∈ visiblePosts store u ↔ (u.is_staff = true ∨ p.is_published = true) := by
  by_cases hs : u.is_staff
  · simp [visiblePosts, hs, hp]
  · simp [visiblePosts, hs, List.mem_filter, hp, Bool.not_eq_true u.is_staff ▸ hs]

/-- Retrieve succeeds exactly when some visible post carries the id. -/
lemma postRetrieve_ok_iff (store : Store) (u : User) (pid : Nat) :
    (∃ d, postRetrieve store u pid = .ok d) ↔ ∃ q ∈ visiblePosts store u, q.id = pid := by
  unfold postRetrieve
  constructor
  · rintro ⟨d, hd⟩
    cases hfind : (visiblePosts store u).find? (fun p => p.id == pid) with
    | none => rw [hfind] at hd; exact Except.noConfusion hd
    | some q =>
        refine ⟨q, List.mem_of_find?_eq_some hfind, ?_⟩
        have := List.find?_some hfind
        simpa using this
  · rintro ⟨q, hq, hid⟩
    cases hfind : (visiblePosts store u).find? (fun p => p.id == pid) with
    | none =>
        have := List.find?_eq_none.mp hfind q hq
        simp [hid] at this
    | some r => exact ⟨_, rfl⟩

/-- An unpublished post is filtered out of a non-staff queryset before the
id lookup, so retrieve reports `NotFound` there. -/
lemma postRetrieve_unpublished_notFound (store : Store) (u : User) (p : Post)
    (hs : u.is_staff = false) (hpub : p.is_published = false)
    (huniq : ∀ q ∈ store.posts, q.id = p.id → q = p) :
    postRetrieve store u p.id = .error ApiErr.notFound := by
  unfold postRetrieve
  have hnone : (visiblePosts store u).find? (fun q => q.id == p.id) = none := by
    apply List.find?_eq_none.mpr
    intro q hq
    simp only [visiblePosts, hs, Bool.false_eq_true, if_false, List.mem_filter] at hq
    simp only [beq_iff_eq]
    intro he
    have hqp : q = p := huniq q hq.1 he
    rw [hqp] at hq
    rw [hpub] at hq
    exact Bool.noConfusion hq.2
  rw [hnone]

/-! ### Claim theorems -/

/-- C1.  Post visibility: the queryset backing both list and retrieve is
all posts for a staff caller and exactly the published posts for every
non-staff caller (no carve-out for the caller's own posts); the list result
ranges over exactly that queryset, and retrieve can address exactly its
members. -/
theorem post_visibility_c1 (store : Store) (u : User) :
    (∀ p ∈ store.posts, (p ∈ visiblePosts store u ↔ (u.is_staff = true ∨ p.is_published = true)))
    ∧ (∀ p : Post, p ∈ postList store u ↔ p ∈ visiblePosts store u)
    ∧ (∀ pid : Nat, (∃ d, postRetrieve store u pid = .ok d) ↔
        ∃ q ∈ visiblePosts store u, q.id = pid) := by
  refine ⟨fun p hp => mem_visiblePosts_iff store u p hp, fun p => ?_,
    fun pid => postRetrieve_ok_iff store u pid⟩
  exact (List.perm_insertionSort createdDesc (visiblePosts store u)).mem_iff

/-- C1 witness at a concrete store and caller. -/
theorem post_visibility_c1_witness :
    ((Post.mk 11 "l" "L" "B" 2 true 4) ∈
        visiblePosts (Store.mk [Post.mk 11 "l" "L" "B" 2 true 4] []) (User.mk 1 true false))
      ↔ ((User.mk 1 true false).is_staff = true ∨ (Post.mk 11 "l" "L" "B" 2 true 4).is_published = true) :=
  (post_visibility_c1 (Store.mk [Post.mk 11 "l" "L" "B" 2 true 4] []) (User.mk 1 true false)).1
    (Post.mk 11 "l" "L" "B" 2 true 4) (by decide)

/-- C2.  For every non-staff caller (the post's own author included) and
every unpublished post, retrieve yields `NotFound` — never `Forbidden` —
because the visibility filter is applied to the lookup set before any
object-level permission check. -/
theorem retrieve_unpublished_c2 (store : Store) (u : User) (p : Post)
    (hs : u.is_staff = false) (hpub : p.is_published = false)
    (huniq : ∀ q ∈ store.posts, q.id = p.id → q = p) :
    postRetrieve store u p.id = .error ApiErr.notFound :=
  postRetrieve_unpublished_notFound store u p hs hpub huniq

/-- C2 witness: the author themselves, non-staff, gets `NotFound` for their
own unpublished post. -/
theorem retrieve_unpublished_c2_witness :
    postRetrieve (Store.mk [Post.mk 10 "d" "D" "B" 1 false 3] []) (User.mk 1 true false) 10
      = .error ApiErr.notFound :=
  retrieve_unpublished_c2 (Store.mk [Post.mk 10 "d" "D" "B" 1 false 3] [])
    (User.mk 1 true false) (Post.mk 10 "d" "D" "B" 1 false 3) rfl rfl (by decide)

/-- C3.  Comment `is_approved` state machine: a non-staff owner's update
has any submitted `is_approved` silently stripped — the update still
succeeds (no validation error), the body is applied and the stored
`is_approved` is unchanged — while a staff caller can set the flag to
either value via update. -/
theorem comment_approval_c3 (store : Store) (u : User) (cid : Nat)
    (f : CommentUpdateFields) (c : Comment)
    (hfind : store.comments.find? (fun x => x.id == cid) = some c) :
    (u.is_staff = false → u.is_authenticated = true → c.authorId = u.id →
      commentUpdate store u cid f = .ok { c with body := f.body.getD c.body })
    ∧ (u.is_staff = true → u.is_authenticated = true → ∀ b : Bool,
      commentUpdate store u cid { f with is_approved := some b }
        = .ok { c with body := f.body.getD c.body, is_approved := b }) := by
  constructor
  · intro hs ha hown
    unfold commentUpdate commentGetObject
    rw [hfind]
    simp [isAuthorOrAdmin, hs, ha, hown]
  · intro hs ha b
    unfold commentUpdate commentGetObject
    rw [hfind]
    simp [isAuthorOrAdmin, hs, ha]

/-- C3 witness: a non-staff owner PATCHing `{is_approved := true, body := "x"}`
gets the body applied and `is_approved` left as stored. -/
theorem comment_approval_c3_witness :
    commentUpdate (Store.mk [] [Comment.mk 20 10 1 "hi" false]) (User.mk 1 true false) 20
        (CommentUpdateFields.mk (some "x") (some true))
      = .ok { Comment.mk 20 10 1 "hi" false with
                body := (some "x").getD (Comment.mk 20 10 1 "hi" false).body } :=
  (comment_approval_c3 (Store.mk [] [Comment.mk 20 10 1 "hi" false]) (User.mk 1 true false) 20
      (CommentUpdateFields.mk (some "x") (some true)) (Comment.mk 20 10 1 "hi" false)
      (by decide)).1 rfl rfl rfl

/-- C4.  Individual-comment retrieve, update and delete are permitted iff
the caller is staff or is the comment's author; every other caller — all
unauthenticated callers included — is denied. -/
theorem comment_detail_policy_c4 (store : Store) (u : User) (cid : Nat)
    (f : CommentUpdateFields) (c : Comment)
    (hfind : store.comments.find? (fun x => x.id == cid) = some c) :
    ((commentRetrieve store u cid = .ok c) ↔ isAuthorOrAdmin u c = true)
    ∧ (exOk (commentUpdate store u cid f) = true ↔ isAuthorOrAdmin u c = true)
    ∧ (exOk (commentDelete store u cid) = true ↔ isAuthorOrAdmin u c = true)
    ∧ (isAuthorOrAdmin u c = true ↔
        (u.is_authenticated = true ∧ (u.is_staff = true ∨ c.authorId = u.id))) := by
  have hchar : isAuthorOrAdmin u c = true ↔
      (u.is_authenticated = true ∧ (u.is_staff = true ∨ c.authorId = u.id)) := by
    simp [isAuthorOrAdmin, Bool.and_eq_true, Bool.or_eq_true, beq_iff_eq]
  refine ⟨?_, ?_, ?_, hchar⟩ <;> by_cases hperm : isAuthorOrAdmin u c = true
  · simp [commentRetrieve, commentGetObject, hfind, hperm]
  · simp [commentRetrieve, commentGetObject, hfind, hperm]
  · simp [commentUpdate, commentGetObject, hfind, hperm, exOk]
  · simp [commentUpdate, commentGetObject, hfind, hperm, exOk]
  · simp [commentDelete, commentGetObject, hfind, hperm, exOk]
  · simp [commentDelete, commentGetObject, hfind, hperm, exOk]

/-- C4 witness: a non-owner non-staff authenticated caller's access to
another user's comment reduces to the staff-or-owner test (here false). -/
theorem comment_detail_policy_c4_witness :
    (commentRetrieve (Store.mk [] [Comment.mk 20 10 1 "hi" false]) (User.mk 2 true false) 20
        = .ok (Comment.mk 20 10 1 "hi" false))
      ↔ isAuthorOrAdmin (User.mk 2 true false) (Comment.mk 20 10 1 "hi" false) = true :=
  (comment_detail_policy_c4 (Store.mk [] [Comment.mk 20 10 1 "hi" false]) (User.mk 2 true false)
      20 (CommentUpdateFields.mk none none) (Comment.mk 20 10 1 "hi" false) (by decide)).1

/-- C5.  Post create: every successful create stores the caller as the
post's author and answers with exactly the `{url, message}` pair (the
`CreateResponse` shape carries nothing else), where the url is
`/posts/{slug}-{id}/` built from the created row and the message is the
fixed success text; a non-staff create also leaves the post
unpublished. -/
theorem post_create_response_c5 (store : Store) (u : User) (f : PostCreateFields)
    (now : Nat) (s : Store) (p : Post) (r : CreateResponse)
    (h : postCreate store u f now = .ok (s, p, r)) :
    p.authorId = u.id
    ∧ r.url = "/posts/" ++ p.slug ++ "-" ++ toString p.id ++ "/"
    ∧ r.message = "Post created successfully."
    ∧ (u.is_staff = false → p.is_published = false) := by
  unfold postCreate at h
  split at h
  · exact Except.noConfusion h
  · split at h
    · exact Except.noConfusion h
    · rw [Except.ok.injEq, Prod.mk.injEq, Prod.mk.injEq] at h
      obtain ⟨-, hp, hr⟩ := h
      subst hp
      subst hr
      refine ⟨rfl, rfl, rfl, fun hs => ?_⟩
      simp [newPostRow, hs]

/-- C5 witness: a concrete authenticated non-staff create. -/
theorem post_create_response_c5_witness :
    (newPostRow (Store.mk [] []) (User.mk 1 true false) (PostCreateFields.mk "T" "B" none) 9).authorId
        = (User.mk 1 true false).id
    ∧ (CreateResponse.mk ("/posts/" ++ mkSlug "T" ++ "-1/") "Post created successfully.").url
        = "/posts/"
            ++ (newPostRow (Store.mk [] []) (User.mk 1 true false) (PostCreateFields.mk "T" "B" none) 9).slug
            ++ "-"
            ++ toString (newPostRow (Store.mk [] []) (User.mk 1 true false) (PostCreateFields.mk "T" "B" none) 9).id
            ++ "/"
    ∧ (CreateResponse.mk ("/posts/" ++ mkSlug "T" ++ "-1/") "Post created successfully.").message
        = "Post created successfully."
    ∧ ((User.mk 1 true false).is_staff = false →
        (newPostRow (Store.mk [] []) (User.mk 1 true false) (PostCreateFields.mk "T" "B" none) 9).is_published
          = false) :=
  post_create_response_c5 (Store.mk [] []) (User.mk 1 true false) (PostCreateFields.mk "T" "B" none) 9
    (Store.mk [newPostRow (Store.mk [] []) (User.mk 1 true false) (PostCreateFields.mk "T" "B" none) 9] [])
    (newPostRow (Store.mk [] []) (User.mk 1 true false) (PostCreateFields.mk "T" "B" none) 9)
    (CreateResponse.mk ("/posts/" ++ mkSlug "T" ++ "-1/") "Post created successfully.")
    (by decide)

/-- C6.  Post update and delete are staff-only: every non-staff caller is
denied outright (403 when authenticated, 401 when anonymous) before any
lookup — their own posts included — and a successful (staff) update answers
with only the fixed success message (`MsgResponse` carries nothing
else). -/
theorem post_update_staff_only_c6 (store : Store) (u : User) (pid : Nat)
    (f : PostUpdateFields) :
    (u.is_staff = false →
      postUpdate store u pid f = .error (denied u)
      ∧ postDelete store u pid = .error (denied u))
    ∧ (∀ s r, postUpdate store u pid f = .ok (s, r) →
        r = MsgResponse.mk "Post updated successfully.") := by
  constructor
  · intro hs
    constructor
    · simp [postUpdate, hs]
    · simp [postDelete, hs]
  · intro s r h
    unfold postUpdate at h
    split at h
    · exact Except.noConfusion h
    · split at h
      · exact Except.noConfusion h
      · rw [Except.ok.injEq, Prod.mk.injEq] at h
        exact h.2.symm

/-- C6 witness: a non-staff author (post 10 is theirs) is denied update and
delete with 403. -/
theorem post_update_staff_only_c6_witness :
    postUpdate (Store.mk [Post.mk 10 "d" "D" "B" 1 false 3] []) (User.mk 1 true false) 10
        (PostUpdateFields.mk none none none)
      = .error (denied (User.mk 1 true false))
    ∧ postDelete (Store.mk [Post.mk 10 "d" "D" "B" 1 false 3] []) (User.mk 1 true false) 10
      = .error (denied (User.mk 1 true false)) :=
  (post_update_staff_only_c6 (Store.mk [Post.mk 10 "d" "D" "B" 1 false 3] [])
    (User.mk 1 true false) 10 (PostUpdateFields.mk none none none)).1 rfl

/-- C7.  Comment create: succeeds exactly for authenticated callers, and
every created comment has the caller as author and `is_approved = false`,
whatever `is_approved` the input carried. -/
theorem comment_create_c7 (store : Store) (u : User) (f : CommentCreateFields) :
    (exOk (commentCreate store u f) = true ↔ u.is_authenticated = true)
    ∧ (∀ s c, commentCreate store u f = .ok (s, c) →
        c.authorId = u.id ∧ c.is_approved = false) := by
  constructor
  · by_cases ha : u.is_authenticated <;> simp [commentCreate, exOk, ha]
  · intro s c h
    unfold commentCreate at h
    split at h
    · exact Except.noConfusion h
    · rw [Except.ok.injEq, Prod.mk.injEq] at h
      obtain ⟨-, hc⟩ := h
      subst hc
      exact ⟨rfl, rfl⟩

/-- C7 witness: an authenticated caller submitting `is_approved = true`
still gets an unapproved comment authored by them. -/
theorem comment_create_c7_witness :
    (newCommentRow (Store.mk [] []) (User.mk 1 true false)
        (CommentCreateFields.mk 10 "yo" (some true))).authorId = (User.mk 1 true false).id
    ∧ (newCommentRow (Store.mk [] []) (User.mk 1 true false)
        (CommentCreateFields.mk 10 "yo" (some true))).is_approved = false :=
  (comment_create_c7 (Store.mk [] []) (User.mk 1 true false)
      (CommentCreateFields.mk 10 "yo" (some true))).2
    (Store.mk []
      [newCommentRow (Store.mk [] []) (User.mk 1 true false)
        (CommentCreateFields.mk 10 "yo" (some true))])
    (newCommentRow (Store.mk [] []) (User.mk 1 true false)
      (CommentCreateFields.mk 10 "yo" (some true)))
    (by rfl)

/-- C8 counterexample.  `order_by("-created_at")` names no second sort key,
so the lookup contract admits, for the same store and caller, two distinct
list results when two published posts share a creation time — and in
particular admits the result that lists equal-timestamp posts by ascending
id.  The claimed determinism with an id-descending tie-break therefore does
not hold. -/
theorem post_list_tie_c8_counterexample :
    listAdmissible (Store.mk [Post.mk 1 "a" "A" "B" 7 true 5, Post.mk 2 "b" "B2" "B" 7 true 5] [])
        (User.mk 0 false false)
        [Post.mk 1 "a" "A" "B" 7 true 5, Post.mk 2 "b" "B2" "B" 7 true 5]
    ∧ listAdmissible (Store.mk [Post.mk 1 "a" "A" "B" 7 true 5, Post.mk 2 "b" "B2" "B" 7 true 5] [])
        (User.mk 0 false false)
        [Post.mk 2 "b" "B2" "B" 7 true 5, Post.mk 1 "a" "A" "B" 7 true 5]
    ∧ ([Post.mk 1 "a" "A" "B" 7 true 5, Post.mk 2 "b" "B2" "B" 7 true 5]
        ≠ [Post.mk 2 "b" "B2" "B" 7 true 5, Post.mk 1 "a" "A" "B" 7 true 5])
    ∧ (Post.mk 1 "a" "A" "B" 7 true 5).created_at = (Post.mk 2 "b" "B2" "B" 7 true 5).created_at
    ∧ (Post.mk 1 "a" "A" "B" 7 true 5).id < (Post.mk 2 "b" "B2" "B" 7 true 5).id := by
  refine ⟨⟨?_, ?_⟩, ⟨?_, ?_⟩, by decide, rfl, by decide⟩
  · decide
  · simp [createdDesc]
  · decide
  · simp [createdDesc]

/-- C8 as amended.  For every caller the list result is the visible posts
ordered by creation time descending; the relative order of posts with equal
creation time is not fixed by the code (the executable `postList` is one
admissible arrangement). -/
theorem post_list_ordered_c8 (store : Store) (u : User) :
    listAdmissible store u (postList store u) :=
  ⟨List.perm_insertionSort createdDesc (visiblePosts store u),
   List.sorted_insertionSort createdDesc (visiblePosts store u)⟩

/-- C9.  Retrieve's detail payload nests exactly all stored comments of the
retrieved post: membership is independent of `is_approved` and of who wrote
the comment, so comment read-visibility inside post detail is not gated by
the staff-or-owner comment policy. -/
theorem post_detail_comments_c9 (store : Store) (u : User) (pid : Nat) (d : PostDetail)
    (h : postRetrieve store u pid = .ok d) :
    ∀ c : Comment, c ∈ d.comments ↔ (c ∈ store.comments ∧ c.postId = d.post.id) := by
  unfold postRetrieve at h
  cases hfind : (visiblePosts store u).find? (fun p => p.id == pid) with
  | none => rw [hfind] at h; exact Except.noConfusion h
  | some p =>
      rw [hfind] at h
      rw [Except.ok.injEq] at h
      subst h
      intro c
      simp [List.mem_filter]

/-- C9 witness: an anonymous caller's detail view of a published post
includes an unapproved comment by some other user. -/
theorem post_detail_comments_c9_witness :
    Comment.mk 21 11 1 "c" false
        ∈ (PostDetail.mk (Post.mk 11 "l" "L" "B" 2 true 4) [Comment.mk 21 11 1 "c" false]).comments
      ↔ (Comment.mk 21 11 1 "c" false
            ∈ (Store.mk [Post.mk 11 "l" "L" "B" 2 true 4] [Comment.mk 21 11 1 "c" false]).comments
          ∧ (Comment.mk 21 11 1 "c" false).postId
              = (PostDetail.mk (Post.mk 11 "l" "L" "B" 2 true 4) [Comment.mk 21 11 1 "c" false]).post.id) :=
  post_detail_comments_c9
    (Store.mk [Post.mk 11 "l" "L" "B" 2 true 4] [Comment.mk 21 11 1 "c" false])
    (User.mk 0 false false) 11
    (PostDetail.mk (Post.mk 11 "l" "L" "B" 2 true 4) [Comment.mk 21 11 1 "c" false])
    (by decide) (Comment.mk 21 11 1 "c" false)

/-- C10.  Comment detail is not gated by parent-post visibility: the
comment lookup set is all comments, so the non-staff owner of a comment on
an unpublished post can still retrieve, update and delete it — and a staff
caller can retrieve it — even though the same owner's retrieve of the
parent post reports `NotFound`. -/
theorem comment_unpublished_parent_c10 (store : Store) (u staffU : User) (p : Post)
    (c : Comment) (f : CommentUpdateFields)
    (hs : u.is_staff = false) (ha : u.is_authenticated = true) (hown : c.authorId = u.id)
    (hpub : p.is_published = false)
    (huniq : ∀ q ∈ store.posts, q.id = p.id → q = p)
    (hfind : store.comments.find? (fun x => x.id == c.id) = some c)
    (hcpost : c.postId = p.id)
    (hstaffS : staffU.is_staff = true) (hstaffA : staffU.is_authenticated = true) :
    commentRetrieve store u c.id = .ok c
    ∧ exOk (commentUpdate store u c.id f) = true
    ∧ exOk (commentDelete store u c.id) = true
    ∧ postRetrieve store u p.id = .error ApiErr.notFound
    ∧ commentRetrieve store staffU c.id = .ok c := by
  have hperm : isAuthorOrAdmin u c = true := by simp [isAuthorOrAdmin, ha, hown]
  have hperm2 : isAuthorOrAdmin staffU c = true := by
    simp [isAuthorOrAdmin, hstaffA, hstaffS]
  refine ⟨?_, ?_, ?_, ?_, ?_⟩
  · simp [commentRetrieve, commentGetObject, hfind, hperm]
  · simp [commentUpdate, commentGetObject, hfind, hperm, exOk]
  · simp [commentDelete, commentGetObject, hfind, hperm, exOk]
  · exact postRetrieve_unpublished_notFound store u p hs hpub huniq
  · simp [commentRetrieve, commentGetObject, hfind, hperm2]

/-- C10 witness: owner of comment 20 on unpublished post 10 reads their
comment but not the parent post. -/
theorem comment_unpublished_parent_c10_witness :
    commentRetrieve (Store.mk [Post.mk 10 "d" "D" "B" 1 false 3] [Comment.mk 20 10 1 "hi" false])
        (User.mk 1 true false) 20
      = .ok (Comment.mk 20 10 1 "hi" false)
    ∧ exOk (commentUpdate (Store.mk [Post.mk 10 "d" "D" "B" 1 false 3] [Comment.mk 20 10 1 "hi" false])
        (User.mk 1 true false) 20 (CommentUpdateFields.mk none none)) = true
    ∧ exOk (commentDelete (Store.mk [Post.mk 10 "d" "D" "B" 1 false 3] [Comment.mk 20 10 1 "hi" false])
        (User.mk 1 true false) 20) = true
    ∧ postRetrieve (Store.mk [Post.mk 10 "d" "D" "B" 1 false 3] [Comment.mk 20 10 1 "hi" false])
        (User.mk 1 true false) 10
      = .error ApiErr.notFound
    ∧ commentRetrieve (Store.mk [Post.mk 10 "d" "D" "B" 1 false 3] [Comment.mk 20 10 1 "hi" false])
        (User.mk 3 true true) 20
      = .ok (Comment.mk 20 10 1 "hi" false) :=
  comment_unpublished_parent_c10
    (Store.mk [Post.mk 10 "d" "D" "B" 1 false 3] [Comment.mk 20 10 1 "hi" false])
    (User.mk 1 true false) (User.mk 3 true true) (Post.mk 10 "d" "D" "B" 1 false 3)
    (Comment.mk 20 10 1 "hi" false) (CommentUpdateFields.mk none none)
    rfl rfl rfl rfl (by decide) (by decide) rfl rfl rfl

end Blog
